import Mathlib

/-!
Shallow embedding of the data-wrangling steps of `finetune.ipynb`: CSV
ingestion with `fillna`, label-to-integer encoding via `Series.replace`,
the two-stage stratified `train_test_split`, the baseline-evaluation
label decoding and `Correct` flag, the `compute_metrics` callback, and
the fixed-length tokenization call.  Steps implemented by external
libraries (scikit-learn's stratified splitter, the pretrained tokenizer)
are modelled from the specification, as noted on their definitions.
-/

namespace FinetuneNb

/-- A dataframe cell: a string, an integer, or a missing value (pandas `NaN`). -/
inductive Cell where
  | str : String → Cell
  | int : Int → Cell
  | null : Cell
deriving DecidableEq, Repr

/-- `True` exactly on the missing-value cell, mirroring `pandas.isnull` per cell. -/
def Cell.isNull : Cell → Bool
  | .null => true
  | _ => false

/-- A row of the two-column dataframe built in the notebook:
`df = df.rename(columns=lambda x: ["label", "sentence"][x])`. -/
structure Row where
  label : Cell
  sentence : Cell
deriving DecidableEq, Repr

/-- A raw CSV record with two fields, either of which may be missing
(`header=None` two-column file). -/
structure CsvRow where
  c0 : Option String
  c1 : Option String
deriving DecidableEq, Repr

/-- `pd.read_csv` turns a present field into a string cell and a missing field
into `NaN`. -/
def readCell : Option String → Cell
  | some s => .str s
  | none => .null

/-- `.fillna("")`: replace a missing value by the empty string, leave other
cells unchanged. -/
def fillnaCell : Cell → Cell
  | .null => .str ""
  | c => c

/-- The load step of cell 8:
`pd.read_csv("all-data.csv", ...).fillna("")` followed by the rename to
columns `label`, `sentence`. -/
def load (csv : List CsvRow) : List Row :=
  csv.map fun r => { label := fillnaCell (readCell r.c0),
                     sentence := fillnaCell (readCell r.c1) }

/-- `df.isnull().values.any()` (cell 10): true iff some cell of the dataframe
is missing. -/
def isnullAny (df : List Row) : Bool :=
  df.any fun r => r.label.isNull || r.sentence.isNull

/-- `pandas.Series.replace(old_list, new_list)` applied to one cell: the first
matching old value is replaced by the corresponding new value; a cell matching
no old value is left unchanged. -/
def replaceList (olds news : List Cell) (c : Cell) : Cell :=
  match (olds.zip news).find? (fun p => p.1 == c) with
  | some p => p.2
  | none => c

/-- The ground-truth label strings of the dataset, in the order the notebook
lists them: `["neutral","positive","negative"]`. -/
def classLabelCells : List Cell :=
  [.str "neutral", .str "positive", .str "negative"]

/-- The integer codes, in the order the notebook lists them: `[0,1,2]`. -/
def classCodeCells : List Cell :=
  [.int 0, .int 1, .int 2]

/-- The label encoding of cell 8:
`df["label"].replace(["neutral","positive","negative"],[0,1,2])` on one cell. -/
def encodeLabelCell (c : Cell) : Cell :=
  replaceList classLabelCells classCodeCells c

/-- The encoding step applied to the whole dataframe. -/
def encodeLabels (df : List Row) : List Row :=
  df.map fun r => { r with label := encodeLabelCell r.label }

/-- The capitalized class names emitted by the sentiment pipeline and decoded
in cell 19: `["Neutral", "Positive", "Negative"]`. -/
def predLabelCells : List Cell :=
  [.str "Neutral", .str "Positive", .str "Negative"]

/-- The prediction decoding of cell 19:
`results_df["label"].replace(["Neutral","Positive","Negative"],[0,1,2])`
on one cell. -/
def encodePredCell (c : Cell) : Cell :=
  replaceList predLabelCells classCodeCells c

/-- The `Correct` flag of cell 19:
`results_df["label"].eq(results_df["pred"])` on one row. -/
def correctFlag (labelCode predCode : Cell) : Bool :=
  labelCode == predCode

/-- The three sentiment classes shared by the dataset's ground truth and the
pipeline's output. -/
inductive Sentiment where
  | neutral
  | positive
  | negative
deriving DecidableEq, Repr

/-- Number of rows of `df` carrying label `l`. -/
def countL (df : List Row) (l : Cell) : Nat :=
  (df.filter fun r => decide (r.label = l)).length

/-- The distinct labels of a dataframe, first occurrences kept. -/
def distinctLabels (df : List Row) : List Cell :=
  (df.map Row.label).eraseDups

/-- Insert `x` into a list kept sorted by `rem` descending. -/
def insertByRem (rem : Cell → Nat) (x : Cell) : List Cell → List Cell
  | [] => [x]
  | y :: ys => if rem y < rem x then x :: y :: ys else y :: insertByRem rem x ys

/-- Insertion sort by `rem` descending. -/
def sortByRemDesc (rem : Cell → Nat) : List Cell → List Cell
  | [] => []
  | x :: xs => insertByRem rem x (sortByRemDesc rem xs)

/-- Size of the held-out side for `test_size=0.1` on `n` rows:
`ceil(0.1 * n)`, scikit-learn's rounding for a fractional `test_size`. -/
def testCount (n : Nat) : Nat :=
  (n + 9) / 10

/-- Modelled from the spec: the per-class test quota of scikit-learn's
stratified splitter, absent from the repository sources.  Each class gets the
floor of its proportional share of the `testCount`-sized held-out set, and the
remaining slots go to the classes of largest fractional remainder. -/
def quotaFun (df : List Row) : Cell → Nat :=
  let n := df.length
  let nTest := testCount n
  let ls := distinctLabels df
  let base := fun l => countL df l * nTest / n
  let rem := fun l => countL df l * nTest % n
  let ordered := sortByRemDesc rem ls
  let extras := nTest - (ls.map base).sum
  fun l => if l ∈ ordered.take extras then base l + 1 else base l

/-- Increment the running tally of label `l` by one. -/
def bump (cnt : Cell → Nat) (l : Cell) : Cell → Nat :=
  fun x => if x = l then cnt x + 1 else cnt x

/-- Walk the rows in order, carrying for each label how many of its rows have
already been held out; a row is held out while its label's quota is unfilled.
Returns `(kept, heldOut)`. -/
def splitGo (q : Cell → Nat) : List Row → (Cell → Nat) → List Row × List Row
  | [], _ => ([], [])
  | r :: rest, cnt =>
    if cnt r.label < q r.label then
      ((splitGo q rest (bump cnt r.label)).1, r :: (splitGo q rest (bump cnt r.label)).2)
    else
      (r :: (splitGo q rest (bump cnt r.label)).1, (splitGo q rest (bump cnt r.label)).2)

/-- Modelled from the spec: `sklearn.model_selection.train_test_split` with
`stratify`, `test_size=0.1` and a seed, absent from the repository sources.
The seed is the given `random_state` when present, otherwise the ambient
random state; it drives the shuffle, modelled as a rotation of the row list.
Returns `(train, test)`. -/
def train_test_split (df : List Row) (randomState : Option Nat)
    (ambientSeed : Nat) : List Row × List Row :=
  let seed := randomState.getD ambientSeed
  splitGo (quotaFun df) (df.rotate seed) (fun _ => 0)

/-- The two-stage split of cell 15:
`df_train, df_test = train_test_split(df, stratify=df["label"], test_size=0.1, random_state=42)`
then
`df_train, df_val = train_test_split(df_train, stratify=df_train["label"], test_size=0.1, random_state=42)`.
Returns `(train, val, test)`. -/
def splitThree (df : List Row) (ambientSeed : Nat) :
    List Row × List Row × List Row :=
  let p1 := train_test_split df (some 42) ambientSeed
  let p2 := train_test_split p1.1 (some 42) ambientSeed
  (p2.1, p2.2, p1.2)

/-- The lowercase spelling a class carries in the dataset CSV. -/
def Sentiment.groundString : Sentiment → String
  | .neutral => "neutral"
  | .positive => "positive"
  | .negative => "negative"

/-- The capitalized spelling a class carries in the pipeline's output. -/
def Sentiment.predString : Sentiment → String
  | .neutral => "Neutral"
  | .positive => "Positive"
  | .negative => "Negative"

/-- `np.argmax` along a row: index of the first maximal entry; `0` on the
empty row (where numpy would raise instead). -/
def argmaxAux : List ℚ → Nat → Nat → ℚ → Nat
  | [], _, best, _ => best
  | x :: xs, i, best, bestV =>
    if bestV < x then argmaxAux xs (i + 1) i x else argmaxAux xs (i + 1) best bestV

/-- `np.argmax(v)` for a single row of per-class scores. -/
def npArgmax : List ℚ → Nat
  | [] => 0
  | x :: xs => argmaxAux xs 1 0 x

/-- `sklearn.metrics.accuracy_score`: the mean of the elementwise equality
vector of the two label sequences; `none` models the `ValueError` raised on a
length mismatch. -/
def accuracy_score (yTrue yPred : List Nat) : Option ℚ :=
  if yTrue.length = yPred.length then
    some ((List.zipWith (fun a b => if a = b then (1 : ℚ) else 0) yTrue yPred).sum
      / (yTrue.length : ℚ))
  else none

/-- `compute_metrics` of cell 27: split `eval_pred` into `(predictions, labels)`,
take `np.argmax(predictions, axis=1)`, and return
`accuracy_score(predictions, labels)` (the notebook passes the arguments in
this order). -/
def compute_metrics (eval_pred : List (List ℚ) × List Nat) : Option ℚ :=
  accuracy_score (eval_pred.1.map npArgmax) eval_pred.2

/-- One tokenized record: the three columns the notebook keeps. -/
structure Encoding where
  input_ids : List Nat
  token_type_ids : List Nat
  attention_mask : List Nat
deriving DecidableEq, Repr

/-- Modelled from the spec: the pretrained tokenizer called with
`truncation=True, padding="max_length", max_length=315` (cell 25), absent from
the repository sources.  The subword vocabulary and special tokens are
abstracted into the incoming token-id list; the call truncates it to
`maxLength` ids and pads with the pad id `0`, with `attention_mask` marking
real tokens and `token_type_ids` all zero for a single-sentence input. -/
def tokenizeFixed (maxLength : Nat) (tokenIds : List Nat) : Encoding :=
  { input_ids := tokenIds.take maxLength ++
      List.replicate (maxLength - (tokenIds.take maxLength).length) 0,
    token_type_ids := List.replicate maxLength 0,
    attention_mask := (tokenIds.take maxLength).map (fun _ => 1) ++
      List.replicate (maxLength - (tokenIds.take maxLength).length) 0 }

/-- The string of a sentence cell (the sentence column holds strings after
`fillna("")`). -/
def sentenceStr : Cell → String
  | .str s => s
  | _ => ""

/-- Cell 25 applied to one of the three datasets: tokenize each record's
sentence with the fixed `max_length=315` call; `encode` abstracts the
pretrained subword vocabulary. -/
def tokenizeDataset (encode : String → List Nat) (rows : List Row) :
    List Encoding :=
  rows.map fun r => tokenizeFixed 315 (encode (sentenceStr r.sentence))

/-- The notebook's data-preparation sequence (cells 8 and 15) as it treats a
possibly-failing `pd.read_csv` result: no step catches, converts, or repairs a
raised error, so the steps compose monadically in `Except`. -/
def dataPrep (readResult : Except String (List CsvRow)) (ambientSeed : Nat) :
    Except String (List Row × List Row × List Row) := do
  let csv ← readResult
  let df := encodeLabels (load csv)
  pure (splitThree df ambientSeed)

/-- A CSV record whose label field is none of the three class strings. -/
def badCsv : List CsvRow :=
  [{ c0 := some "foo", c1 := some "x" }]

/-- A CSV whose label fields are all drawn from the three class strings. -/
def goodCsv : List CsvRow :=
  [{ c0 := some "neutral", c1 := some "x" }, { c0 := some "negative", c1 := none }]

/-- A concrete encoded dataframe: nine rows of class `0` and one of class `1`. -/
def dfTen : List Row :=
  [{ label := .int 0, sentence := .str "a" }, { label := .int 0, sentence := .str "b" },
   { label := .int 0, sentence := .str "c" }, { label := .int 0, sentence := .str "d" },
   { label := .int 0, sentence := .str "e" }, { label := .int 0, sentence := .str "f" },
   { label := .int 0, sentence := .str "g" }, { label := .int 0, sentence := .str "h" },
   { label := .int 0, sentence := .str "i" }, { label := .int 1, sentence := .str "j" }]

/-- A small concrete dataframe with distinct rows. -/
def dfW : List Row :=
  [{ label := .int 0, sentence := .str "a" }, { label := .int 0, sentence := .str "b" },
   { label := .int 1, sentence := .str "c" }]

/-- Concrete per-class score rows for the metric computation. -/
def predsW : List (List ℚ) :=
  [[1, 2, 0], [3, 1, 0]]

/-- Concrete integer labels for the metric computation. -/
def labelsW : List Nat :=
  [1, 0]

/-! Helper lemmas about the embedded operations. -/

theorem fillnaCell_not_null (c : Cell) : (fillnaCell c).isNull = false := by
  cases c <;> rfl

theorem countL_nil (l : Cell) : countL [] l = 0 := rfl

theorem countL_cons (r : Row) (rest : List Row) (l : Cell) :
    countL (r :: rest) l = (if r.label = l then 1 else 0) + countL rest l := by
  unfold countL
  rw [List.filter_cons]
  by_cases h : r.label = l
  · simp [h, Nat.add_comm]
  · simp [h]

theorem countL_rotate (df : List Row) (k : Nat) (l : Cell) :
    countL (df.rotate k) l = countL df l := by
  unfold countL
  exact (((df.rotate_perm k)).filter _).length_eq

theorem splitGo_append_perm (q : Cell → Nat) :
    ∀ (df : List Row) (cnt : Cell → Nat),
      ((splitGo q df cnt).1 ++ (splitGo q df cnt).2).Perm df
  | [], _ => by simp [splitGo]
  | r :: rest, cnt => by
    simp only [splitGo]
    by_cases h : cnt r.label < q r.label
    · rw [if_pos h]
      exact List.perm_middle.trans ((splitGo_append_perm q rest _).cons r)
    · rw [if_neg h]
      simpa using (splitGo_append_perm q rest _).cons r

theorem splitGo_snd_countL (q : Cell → Nat) :
    ∀ (df : List Row) (cnt : Cell → Nat) (l : Cell),
      countL (splitGo q df cnt).2 l = min (q l - cnt l) (countL df l)
  | [], cnt, l => by simp [splitGo, countL_nil]
  | r :: rest, cnt, l => by
    have ih := splitGo_snd_countL q rest (bump cnt r.label) l
    simp only [splitGo]
    by_cases hq : cnt r.label < q r.label
    · rw [if_pos hq]
      by_cases hl : r.label = l
      · subst hl
        rw [countL_cons, ih, countL_cons]
        simp only [bump, if_pos rfl]
        simp only [if_true, ite_true, eq_self_iff_true]
        omega
      · rw [countL_cons, ih, countL_cons]
        have hb : bump cnt r.label l = cnt l := by
          simp [bump, Ne.symm hl]
        rw [hb]
        simp [hl]
    · rw [if_neg hq]
      by_cases hl : r.label = l
      · subst hl
        rw [ih, countL_cons]
        simp only [bump, if_pos rfl]
        simp only [if_true, ite_true, eq_self_iff_true]
        omega
      · rw [ih, countL_cons]
        have hb : bump cnt r.label l = cnt l := by
          simp [bump, Ne.symm hl]
        rw [hb]
        simp [hl]

theorem tts_snd_countL (df : List Row) (rs : Option Nat) (amb : Nat) (l : Cell) :
    countL (train_test_split df rs amb).2 l = min (quotaFun df l) (countL df l) := by
  unfold train_test_split
  rw [splitGo_snd_countL, Nat.sub_zero, countL_rotate]

theorem tts_append_perm (df : List Row) (rs : Option Nat) (amb : Nat) :
    ((train_test_split df rs amb).1 ++ (train_test_split df rs amb).2).Perm df := by
  unfold train_test_split
  exact (splitGo_append_perm _ _ _).trans (df.rotate_perm _)

theorem quotaFun_bounds (df : List Row) (l : Cell) :
    countL df l * testCount df.length / df.length ≤ quotaFun df l ∧
    quotaFun df l ≤ countL df l * testCount df.length / df.length + 1 := by
  unfold quotaFun
  dsimp only
  split <;> omega

theorem base_le_countL (df : List Row) (l : Cell) :
    countL df l * testCount df.length / df.length ≤ countL df l := by
  rcases Nat.eq_zero_or_pos df.length with h0 | hpos
  · simp [h0]
  · have h : testCount df.length ≤ df.length := by unfold testCount; omega
    have hle := Nat.div_le_div_right (c := df.length)
      (Nat.mul_le_mul_left (countL df l) h)
    rwa [Nat.mul_div_cancel _ hpos] at hle

theorem near_of_div_bounds (a n tl : Nat)
    (h1 : a / n ≤ tl) (h2 : tl ≤ a / n + 1) :
    |(tl : ℚ) - (a : ℚ) / (n : ℚ)| ≤ 1 := by
  rcases Nat.eq_zero_or_pos n with h0 | hpos
  · subst h0
    rw [Nat.div_zero] at h1 h2
    have htl : (tl : ℚ) ≤ 1 := by exact_mod_cast h2
    have htl0 : (0 : ℚ) ≤ (tl : ℚ) := by positivity
    rw [Nat.cast_zero, div_zero]
    rw [abs_le]
    constructor <;> linarith
  · have hnQ : (0 : ℚ) < (n : ℚ) := by exact_mod_cast hpos
    have hmod := Nat.div_add_mod' a n
    have hmlt := Nat.mod_lt a hpos
    have hexp : (a / n + 1) * n = a / n * n + n := by ring
    have hub : a < (a / n + 1) * n := by omega
    have hlb : (a / n) * n ≤ a := Nat.div_mul_le_self a n
    have hQ1 : ((a / n : Nat) : ℚ) ≤ (a : ℚ) / (n : ℚ) := by
      rw [le_div_iff₀ hnQ]
      exact_mod_cast hlb
    have hQ2 : (a : ℚ) / (n : ℚ) < ((a / n : Nat) : ℚ) + 1 := by
      rw [div_lt_iff₀ hnQ]
      exact_mod_cast hub
    have hT1 : ((a / n : Nat) : ℚ) ≤ (tl : ℚ) := by exact_mod_cast h1
    have hT2 : (tl : ℚ) ≤ ((a / n : Nat) : ℚ) + 1 := by exact_mod_cast h2
    rw [abs_le]
    constructor <;> linarith

theorem tts_snd_near (df : List Row) (rs : Option Nat) (amb : Nat) (l : Cell) :
    |(countL (train_test_split df rs amb).2 l : ℚ) -
      (countL df l : ℚ) * (testCount df.length : ℚ) / (df.length : ℚ)| ≤ 1 := by
  rw [tts_snd_countL]
  have h1 : countL df l * testCount df.length / df.length ≤
      min (quotaFun df l) (countL df l) :=
    le_min (quotaFun_bounds df l).1 (base_le_countL df l)
  have h2 : min (quotaFun df l) (countL df l) ≤
      countL df l * testCount df.length / df.length + 1 :=
    le_trans (min_le_left _ _) (quotaFun_bounds df l).2
  have := near_of_div_bounds (countL df l * testCount df.length) df.length
    (min (quotaFun df l) (countL df l)) h1 h2
  rw [Nat.cast_mul] at this
  exact this

theorem sum_indicator_eq_countP :
    ∀ (a b : List Nat),
      (List.zipWith (fun x y => if x = y then (1 : ℚ) else 0) a b).sum
        = (((a.zip b).countP fun p => p.1 == p.2 : ℕ) : ℚ)
  | [], _ => by simp
  | _ :: _, [] => by simp
  | x :: xs, y :: ys => by
    have ih := sum_indicator_eq_countP xs ys
    simp only [List.zipWith_cons_cons, List.sum_cons, List.zip_cons_cons,
      List.countP_cons, ih]
    by_cases h : x = y
    · simp [h]
      ring
    · simp [h]

/-! Claim theorems. -/

/-- C1: the label-to-integer encoding of cell 8 is a bijection between the
3-class label set and the codes 0/1/2: the three label strings map, in order
and without repetition, onto the three distinct integer codes, so distinct
labels get distinct codes and every code in 0/1/2 is hit exactly once. -/
theorem label_encoding_bijection :
    classLabelCells.map encodeLabelCell = classCodeCells ∧
    classLabelCells.Nodup ∧ classCodeCells.Nodup := by
  decide

/-- C4: for every input CSV, after the load step
(`pd.read_csv(...).fillna("")`) the dataframe contains no missing values: the
check `df.isnull().values.any()` of cell 10 returns false. -/
theorem load_no_nulls (csv : List CsvRow) : isnullAny (load csv) = false := by
  unfold isnullAny
  rw [List.any_eq_false]
  intro r hr
  unfold load at hr
  rw [List.mem_map] at hr
  obtain ⟨x, _, rfl⟩ := hr
  simp [fillnaCell_not_null]

/-- C5 counterexample: on a CSV whose label field is the string `"foo"`, the
encoding step leaves the label as `"foo"`, which is not one of the integer
codes 0/1/2 — so it is not true that after encoding every label is in the
fixed 3-class code set for every input CSV. -/
theorem label_escapes_classes :
    encodeLabels (load badCsv) =
      [{ label := Cell.str "foo", sentence := Cell.str "x" }] ∧
    Cell.str "foo" ∉ classCodeCells := by
  decide

/-- C5 amended: for every input CSV whose label fields are all drawn from the
three class strings, after the label-encoding step every value in the label
column equals the integer 0, 1, or 2. -/
theorem encode_labels_in_classes (csv : List CsvRow)
    (h : ∀ r ∈ csv, r.c0 ∈ [some "neutral", some "positive", some "negative"]) :
    ∀ r ∈ encodeLabels (load csv), r.label ∈ classCodeCells := by
  intro r hr
  simp only [encodeLabels, load, List.map_map, List.mem_map] at hr
  obtain ⟨x, hx, rfl⟩ := hr
  have hc := h x hx
  simp only [List.mem_cons, List.not_mem_nil, or_false] at hc
  rcases hc with h1 | h1 | h1 <;>
    (show encodeLabelCell (fillnaCell (readCell x.c0)) ∈ classCodeCells;
     rw [h1]; decide)

/-- C5 witness: the amended claim applied to a concrete well-labeled CSV and a
concrete encoded row. -/
theorem encode_labels_in_classes_witness :
    ({ label := Cell.int 0, sentence := Cell.str "x" } : Row).label ∈
      classCodeCells :=
  encode_labels_in_classes goodCsv (by decide)
    { label := Cell.int 0, sentence := Cell.str "x" } (by decide)

/-- C10: the lowercase ground-truth encoding of cell 8 and the capitalized
prediction decoding of cell 19 assign the same integer code to corresponding
sentiment classes, and the `Correct` flag of cell 19 is true exactly when the
predicted class is the true class. -/
theorem ground_pred_codes_agree :
    (∀ s : Sentiment,
      encodeLabelCell (.str s.groundString) = encodePredCell (.str s.predString)) ∧
    (∀ s t : Sentiment,
      correctFlag (encodeLabelCell (.str s.groundString))
          (encodePredCell (.str t.predString)) = decide (t = s)) := by
  constructor
  · intro s
    cases s <;> rfl
  · intro s t
    cases s <;> cases t <;> rfl

/-- C8: the two-stage split of cell 15 is deterministic: since both calls fix
`random_state=42`, its result does not depend on the ambient random state, so
two runs on the same dataframe produce identical train, validation, and test
subsets. -/
theorem splitThree_deterministic (df : List Row) (amb₁ amb₂ : Nat) :
    splitThree df amb₁ = splitThree df amb₂ := rfl

/-- C2: the two-stage split partitions the dataframe: the three subsets
together are a permutation of the original rows, their row counts sum to the
original row count, and (for a dataframe of pairwise-distinct rows, as the
pandas row index guarantees) the three subsets are pairwise disjoint, so every
original row appears in exactly one subset. -/
theorem splitThree_partition (df : List Row) (amb : Nat) :
    ((splitThree df amb).1 ++ (splitThree df amb).2.1 ++
      (splitThree df amb).2.2).Perm df ∧
    (splitThree df amb).1.length + (splitThree df amb).2.1.length +
      (splitThree df amb).2.2.length = df.length ∧
    (df.Nodup →
      (splitThree df amb).1.Disjoint (splitThree df amb).2.1 ∧
      (splitThree df amb).1.Disjoint (splitThree df amb).2.2 ∧
      (splitThree df amb).2.1.Disjoint (splitThree df amb).2.2) := by
  have h1 := tts_append_perm df (some 42) amb
  have h2 := tts_append_perm (train_test_split df (some 42) amb).1 (some 42) amb
  have hperm : ((splitThree df amb).1 ++ (splitThree df amb).2.1 ++
      (splitThree df amb).2.2).Perm df :=
    (h2.append_right (train_test_split df (some 42) amb).2).trans h1
  have hlen : (splitThree df amb).1.length + (splitThree df amb).2.1.length +
      (splitThree df amb).2.2.length = df.length := by
    have h := hperm.length_eq
    simp only [List.length_append] at h
    omega
  refine ⟨hperm, hlen, ?_⟩
  intro hnd
  have hall : ((splitThree df amb).1 ++ (splitThree df amb).2.1 ++
      (splitThree df amb).2.2).Nodup := hperm.nodup_iff.mpr hnd
  rw [List.nodup_append, List.nodup_append, List.disjoint_append_left] at hall
  exact ⟨hall.1.2.2, hall.2.2.1, hall.2.2.2⟩

/-- C2 witness: the partition claim at a concrete three-row dataframe with
distinct rows. -/
theorem splitThree_partition_witness :
    ((splitThree dfW 0).1 ++ (splitThree dfW 0).2.1 ++
      (splitThree dfW 0).2.2).Perm dfW ∧
    (splitThree dfW 0).1.length + (splitThree dfW 0).2.1.length +
      (splitThree dfW 0).2.2.length = dfW.length ∧
    ((splitThree dfW 0).1.Disjoint (splitThree dfW 0).2.1 ∧
     (splitThree dfW 0).1.Disjoint (splitThree dfW 0).2.2 ∧
     (splitThree dfW 0).2.1.Disjoint (splitThree dfW 0).2.2) :=
  ⟨(splitThree_partition dfW 0).1, (splitThree_partition dfW 0).2.1,
   (splitThree_partition dfW 0).2.2 (by decide)⟩

/-- C3 counterexample: on a concrete ten-row dataframe with nine rows of class
0 and one of class 1, the test subset's fraction of class-0 rows differs from
the full dataframe's fraction 9/10 — the split does not preserve the class
proportions exactly. -/
theorem stratified_exact_fails :
    ¬ ((countL (splitThree dfTen 0).2.2 (Cell.int 0) : ℚ) /
        ((splitThree dfTen 0).2.2.length : ℚ) =
      (countL dfTen (Cell.int 0) : ℚ) / (dfTen.length : ℚ)) := by
  have h1 : countL (splitThree dfTen 0).2.2 (Cell.int 0) = 1 := by decide
  have h2 : (splitThree dfTen 0).2.2.length = 1 := by decide
  have h3 : countL dfTen (Cell.int 0) = 9 := by decide
  have h4 : dfTen.length = 10 := by decide
  rw [h1, h2, h3, h4]
  norm_num

/-- C3 amended: each stage of the split is stratified only up to integer
rounding: for every label, the count of that label in the held-out subset of
each stage (the test set, and the validation set within the first-stage train
set) differs from the label's exact proportional share of that held-out size
by at most one row, so the subset proportions approximate rather than exactly
equal the original class proportions. -/
theorem splitThree_stratified_within_one (df : List Row) (amb : Nat) (l : Cell) :
    |(countL (splitThree df amb).2.2 l : ℚ) -
        (countL df l : ℚ) * (testCount df.length : ℚ) / (df.length : ℚ)| ≤ 1 ∧
    |(countL (splitThree df amb).2.1 l : ℚ) -
        (countL (train_test_split df (some 42) amb).1 l : ℚ) *
          (testCount (train_test_split df (some 42) amb).1.length : ℚ) /
          ((train_test_split df (some 42) amb).1.length : ℚ)| ≤ 1 :=
  ⟨tts_snd_near df (some 42) amb l,
   tts_snd_near (train_test_split df (some 42) amb).1 (some 42) amb l⟩

/-- C6: `compute_metrics` computes accuracy by argmax-and-compare: for every
pair of a per-class score matrix and an equally long label list (nonempty, as
the trainer supplies), it returns the fraction of rows whose argmax over the
class axis equals the corresponding integer label. -/
theorem compute_metrics_argmax_compare (preds : List (List ℚ)) (labels : List Nat)
    (hlen : preds.length = labels.length) (hne : preds ≠ []) :
    compute_metrics (preds, labels) =
      some (((((preds.zip labels).countP fun p => npArgmax p.1 == p.2 : ℕ)) : ℚ)
        / (preds.length : ℚ)) := by
  unfold compute_metrics accuracy_score
  simp only [List.length_map]
  rw [if_pos hlen]
  have hz : List.zipWith (fun x y => if x = y then (1 : ℚ) else 0)
        (preds.map npArgmax) labels
      = List.zipWith (fun r y => if npArgmax r = y then (1 : ℚ) else 0) preds labels := by
    rw [List.zipWith_map_left]
  have hsum := sum_indicator_eq_countP (preds.map npArgmax) labels
  rw [hz] at hsum
  rw [hz, hsum]
  congr 2
  rw [List.zip_map_left, List.countP_map]
  rfl

/-- C6 witness: the metric at a concrete two-row score matrix and label list. -/
theorem compute_metrics_argmax_compare_witness :
    predsW.length = labelsW.length ∧ predsW ≠ [] ∧
    compute_metrics (predsW, labelsW) =
      some (((((predsW.zip labelsW).countP fun p => npArgmax p.1 == p.2 : ℕ)) : ℚ)
        / (predsW.length : ℚ)) :=
  ⟨rfl, by simp [predsW],
   compute_metrics_argmax_compare predsW labelsW rfl (by simp [predsW])⟩

/-- C7: the tokenization of cell 25 pads or truncates every sentence to the
fixed maximum length: every record of a tokenized dataset has `input_ids`,
`token_type_ids`, and `attention_mask` of length exactly 315, whatever the
sentence's token count. -/
theorem tokenizeDataset_fixed_length (encode : String → List Nat)
    (rows : List Row) :
    (tokenizeDataset encode rows).all
      (fun e => e.input_ids.length == 315 && e.token_type_ids.length == 315 &&
        e.attention_mask.length == 315) = true := by
  rw [List.all_eq_true]
  intro e he
  unfold tokenizeDataset at he
  rw [List.mem_map] at he
  obtain ⟨r, _, rfl⟩ := he
  unfold tokenizeFixed
  simp only [List.length_append, List.length_take, List.length_replicate,
    List.length_map, Bool.and_eq_true, beq_iff_eq, and_true, inf_eq_min]
  constructor <;> omega

/-- C9: the notebook performs no retry, recovery, or partial-failure handling:
the data-preparation sequence fails exactly when the CSV read fails, and the
raised error propagates to its output unchanged. -/
theorem dataPrep_error_propagates (r : Except String (List CsvRow))
    (amb : Nat) (e : String) :
    dataPrep r amb = Except.error e ↔ r = Except.error e := by
  have hok : ∀ csv : List CsvRow, dataPrep (Except.ok csv) amb
      = Except.ok (splitThree (encodeLabels (load csv)) amb) := fun _ => rfl
  have herr : ∀ e₂ : String, dataPrep (Except.error e₂) amb = Except.error e₂ :=
    fun _ => rfl
  cases r with
  | error e₂ =>
    rw [herr]
    simp
  | ok csv =>
    rw [hok]
    constructor
    · intro h
      exact Except.noConfusion h
    · intro h
      exact Except.noConfusion h

end FinetuneNb
